import Mathlib

/-
Verification development for scraper.py (octaflop/unlocked_scraper).

The development shallowly embeds the scraper's data model and its
worker/queue orchestration:

- the HTML pages are modelled at the interface the code actually uses:
  a page exposes its ".athing" story items and its "tr.comtr" comment
  rows (the two BeautifulSoup selector queries made by the code);
- parse_stories and parse_comments are translated directly from the
  source (including the Python truthiness test on the id attribute and
  the KeyError raised by title_tag["href"] when the anchor lacks an
  href);
- the worker coroutine (scraper.py, worker) is embedded as a labelled
  small-step state machine over a shared configuration (queue, result
  list, per-worker states); the nondeterministic interleaving of the
  worker threads / event loops is the transition relation Step.
  queue.get(block=False) on queue.Queue is modelled as an atomic head
  pop, and all_stories.extend as an atomic append of the page batch,
  matching the thread-safety the code relies on;
- main (scraper.py, main) provides the initial configuration: a queue
  of 100 page URLs and 1 or 8 workers.

Failure is modelled as in the source: fetch raises on network
error/timeout (the oracle returns none), and since neither worker nor
fetch_story_with_comments catches anything, a failed fetch crashes the
worker (WState.crashed).  A TaskGroup child failure cancels its
siblings and re-raises out of the async-with block, so the page batch
is never published.
-/

namespace UnlockedScraper

/-- A URL is an opaque string. -/
abbrev URL := String

/-- Model of str.strip(): drop whitespace from both ends.  In Lean 4.14 a
String is a structure holding its list of characters, so this is fully
executable in the kernel. -/
def pyStrip (s : String) : String :=
  ⟨(((s.data.dropWhile Char.isWhitespace).reverse).dropWhile Char.isWhitespace).reverse⟩

/-- The anchor matched by item.select_one(".titleline > a"): its text and
its optional href attribute (title_tag["href"] raises KeyError when the
attribute is absent). -/
structure TitleTag where
  text : String
  href : Option String
deriving DecidableEq, Repr

/-- One ".athing" story item of a Hacker News page, at the interface
parse_stories reads: the optional title anchor and the optional "id"
attribute (item.get("id") returns None when absent). -/
structure Item where
  titleTag : Option TitleTag
  attrId : Option String
deriving DecidableEq, Repr

/-- One "tr.comtr" row of a comment page, at the interface parse_comments
reads: the text of the ".hnuser" tag (none when select_one finds no
match) and the result of comment_tag.get_text(separator, strip=True)
(none when there is no ".commtext" match). -/
structure CommentRow where
  userText : Option String
  commText : Option String
deriving DecidableEq, Repr

/-- A fetched document body, exposed at the two selector queries the code
performs on it: soup.select(".athing") and soup.select("tr.comtr"). -/
structure Html where
  storyItems : List Item
  commentRows : List CommentRow
deriving DecidableEq, Repr

/-- A story record as built by parse_stories, line 47 of scraper.py:
the dict literal has exactly the keys "id", "title" and "link". -/
structure Story where
  id : String
  title : String
  link : String
deriving DecidableEq, Repr

/-- A comment as built by parse_comments: the dict with keys "user" and
"text". -/
structure Comment where
  user : String
  text : String
deriving DecidableEq, Repr

/-- A story dict after fetch_story_with_comments has added the "comments"
key. -/
structure FullStory where
  id : String
  title : String
  link : String
  comments : List Comment
deriving DecidableEq, Repr

/-- BASE_URL = "https://news.ycombinator.com/news?p={}" (scraper.py line 16),
formatted with the page number. -/
def BASE_URL (p : Nat) : URL :=
  "https://news.ycombinator.com/news?p=" ++ toString p

/-- ITEM_URL = "https://news.ycombinator.com/item?id={}" (scraper.py line 17),
formatted with the story id. -/
def ITEM_URL (sid : String) : URL :=
  "https://news.ycombinator.com/item?id=" ++ sid

/-- Recursion over the ".athing" items of parse_stories (scraper.py lines
40-47).  For each item the code evaluates `if title_tag and story_id:`;
a Tag match is truthy, and the id string is truthy iff non-empty
(Python truthiness).  When the guard holds, `title_tag["href"]` raises
KeyError if the anchor has no href attribute — the whole call then
raises, modelled by Except.error. -/
def parseStoriesItems : List Item → Except Unit (List Story)
  | [] => .ok []
  | item :: rest =>
    match item.titleTag, item.attrId with
    | some t, some sid =>
      if sid = "" then
        parseStoriesItems rest
      else
        match t.href with
        | none => .error ()
        | some hrefv =>
          match parseStoriesItems rest with
          | .error e => .error e
          | .ok tail =>
            .ok ({ id := sid, title := pyStrip t.text, link := pyStrip hrefv } :: tail)
    | _, _ => parseStoriesItems rest

/-- parse_stories (scraper.py lines 31-49): iterate the ".athing" items,
keeping items that have both a truthy title anchor and a truthy id. -/
def parse_stories (h : Html) : Except Unit (List Story) :=
  parseStoriesItems h.storyItems

/-- parse_comments (scraper.py lines 52-70): iterate the "tr.comtr" rows,
keeping rows with both a ".hnuser" and a ".commtext" match; the user
text is stripped, the comment text is the get_text(...) result. -/
def parse_comments (h : Html) : List Comment :=
  h.commentRows.filterMap fun row =>
    match row.userText, row.commText with
    | some u, some t => some { user := pyStrip u, text := t }
    | _, _ => none

/-- The record completeness property of parseStoriesItems: every record
comes from an item carrying both a title anchor (with an href) and a
non-empty id, and its fields are exactly the stripped values of that
item. -/
theorem parseStoriesItems_complete (items : List Item) (recs : List Story)
    (hp : parseStoriesItems items = .ok recs) :
    ∀ r ∈ recs, ∃ item ∈ items, ∃ t : TitleTag, ∃ hrefv : String,
      item.titleTag = some t ∧ item.attrId = some r.id ∧ t.href = some hrefv ∧
      r.id ≠ "" ∧ r.title = pyStrip t.text ∧ r.link = pyStrip hrefv := by
  induction items generalizing recs with
  | nil =>
      simp only [parseStoriesItems] at hp
      cases hp
      intro r hr
      simp at hr
  | cons item rest ih =>
      intro r hr
      rw [parseStoriesItems] at hp
      split at hp
      · next t sid hti hid =>
          split at hp
          · rcases ih recs hp r hr with ⟨it, hmem, hrest⟩
            exact ⟨it, List.mem_cons_of_mem _ hmem, hrest⟩
          · next hsid =>
              split at hp
              · cases hp
              · next hrefv hhr =>
                  split at hp
                  · cases hp
                  · next tail htail =>
                      cases hp
                      rcases List.mem_cons.mp hr with hhead | htl
                      · subst hhead
                        exact ⟨item, List.mem_cons_self _ _, t, hrefv,
                          hti, hid, hhr, hsid, rfl, rfl⟩
                      · rcases ih tail htail r htl with ⟨it, hmem, hrest⟩
                        exact ⟨it, List.mem_cons_of_mem _ hmem, hrest⟩
      · next =>
          rcases ih recs hp r hr with ⟨it, hmem, hrest⟩
          exact ⟨it, List.mem_cons_of_mem _ hmem, hrest⟩

/-- C10: every record returned by parse_stories is a complete dict with
exactly the keys id, title and link (the Story structure is the dict
literal of line 47), where title and link are the whitespace-stripped
anchor text and href, and the id is the (truthy, hence non-empty and
non-None) id attribute of the originating ".athing" item; items lacking
a title anchor or an id contribute no record at all. -/
theorem parse_stories_records_complete (h : Html) (recs : List Story)
    (hp : parse_stories h = .ok recs) :
    ∀ r ∈ recs, ∃ item ∈ h.storyItems, ∃ t : TitleTag, ∃ hrefv : String,
      item.titleTag = some t ∧ item.attrId = some r.id ∧ t.href = some hrefv ∧
      r.id ≠ "" ∧ r.title = pyStrip t.text ∧ r.link = pyStrip hrefv :=
  parseStoriesItems_complete h.storyItems recs hp

/-- A concrete page for the witness: one complete item, one item lacking
an id, one item lacking a title anchor. -/
def witnessHtml : Html :=
  ⟨[⟨some ⟨" Story A ", some " https://a.example/ "⟩, some "1001"⟩,
    ⟨some ⟨"No id", some "x"⟩, none⟩,
    ⟨none, some "1002"⟩], []⟩

/-- Witness for C10: on the concrete page, parse_stories returns exactly
the one complete, stripped record, and the theorem applies to it. -/
theorem parse_stories_records_complete_witness :
    parse_stories witnessHtml = .ok [⟨"1001", "Story A", "https://a.example/"⟩] ∧
    ∀ r ∈ [(⟨"1001", "Story A", "https://a.example/"⟩ : Story)],
      ∃ item ∈ witnessHtml.storyItems, ∃ t : TitleTag, ∃ hrefv : String,
        item.titleTag = some t ∧ item.attrId = some r.id ∧ t.href = some hrefv ∧
        r.id ≠ "" ∧ r.title = pyStrip t.text ∧ r.link = pyStrip hrefv :=
  ⟨rfl, parse_stories_records_complete witnessHtml _ rfl⟩

/-- The fetch oracle: the external world behind fetch (scraper.py lines
20-28).  `env u = some h` means the GET of u returns a body parsed into
the document h; `env u = none` means the request raises (network error,
non-success handling, or the timeout=100 expiring) — fetch itself
catches nothing. -/
abbrev Env := URL → Option Html

/-- The result of fetch_story_with_comments (scraper.py lines 73-85) on a
story whose comment-page fetch succeeds: the story dict with the
"comments" key added.  The none branch is unreachable at a publish,
because a failing comment fetch crashes the worker before the page is
published. -/
def enrichStory (env : Env) (s : Story) : FullStory :=
  match env (ITEM_URL s.id) with
  | some h => ⟨s.id, s.title, s.link, parse_comments h⟩
  | none => ⟨s.id, s.title, s.link, []⟩

/-- The state of one worker coroutine (scraper.py lines 88-114).

- idle: at the top of the while-loop, about to call queue.get;
- fetching u: holds the claimed page URL, awaiting fetch + parse;
- fanout ss pending: the page parsed to the non-empty story list ss and
  one comment-fetch task was created per story; pending records which
  tasks are still outstanding (true = outstanding);
- done: the loop exited by break (queue Empty, or a zero-story page);
- crashed: an uncaught exception propagated out of the coroutine (a
  failed fetch, a KeyError from parse_stories, or a TaskGroup child
  failure). -/
inductive WState where
  | idle
  | fetching (page : URL)
  | fanout (stories : List Story) (pending : List Bool)
  | done
  | crashed
deriving DecidableEq, Repr

/-- The shared state of one run of main: the page queue (queue.Queue,
modelled as the list of entries in FIFO order), the shared all_stories
list, and the states of the workers. -/
structure Config where
  queue : List URL
  sink : List FullStory
  workers : List WState
deriving DecidableEq, Repr

/-- Observable events of a run, used to state trace properties. -/
inductive Event where
  | claimed (w : Nat) (u : URL)
  | emptyQueue (w : Nat)
  | pageOk (w : Nat) (u : URL)
  | pageEmpty (w : Nat) (u : URL)
  | pageFail (w : Nat) (u : URL)
  | taskOk (w : Nat) (j : Nat)
  | taskFail (w : Nat) (j : Nat)
  | published (w : Nat) (rs : List FullStory)
deriving DecidableEq, Repr

/-- One atomic step of the interleaved execution of the workers
(scraper.py lines 101-114), labelled with its observable event.

- claim / claimEmpty: queue.get(block=False) — an atomic pop of the
  head of the thread-safe queue; on Empty the worker breaks out of the
  loop (done);
- fetchFail: `html = await fetch(session, page)` raises, nothing
  catches it, the worker crashes;
- parseFailStep: parse_stories raises KeyError on title_tag["href"];
- pageEmptyStep: `if not stories: break` — a zero-story page ends the
  loop (done);
- fanoutStep: one task per story is created in the TaskGroup;
- taskOkStep: one fetch_story_with_comments task completes, attaching
  the parsed comments to its story;
- taskFailStep: a task's comment fetch raises; the TaskGroup cancels
  the sibling tasks and re-raises out of the async-with block, so the
  worker crashes and the page is never published;
- publishStep: the TaskGroup join completed for every task, and
  all_stories.extend(stories) appends the whole page batch atomically;
  the worker loops back to queue.get.

Fetch + parse of a page, and fetch + parse of one comment page, are
collapsed into single steps: they touch no shared state, so the
collapse removes no distinguishable interleaving of the shared queue
and sink. -/
inductive Step (env : Env) : Config → Event → Config → Prop
  | claim {c : Config} {w : Nat} {u : URL} {rest : List URL}
      (hw : c.workers[w]? = some .idle) (hq : c.queue = u :: rest) :
      Step env c (.claimed w u) ⟨rest, c.sink, c.workers.set w (.fetching u)⟩
  | claimEmpty {c : Config} {w : Nat}
      (hw : c.workers[w]? = some .idle) (hq : c.queue = []) :
      Step env c (.emptyQueue w) ⟨c.queue, c.sink, c.workers.set w .done⟩
  | fetchFail {c : Config} {w : Nat} {u : URL}
      (hw : c.workers[w]? = some (.fetching u)) (he : env u = none) :
      Step env c (.pageFail w u) ⟨c.queue, c.sink, c.workers.set w .crashed⟩
  | parseFailStep {c : Config} {w : Nat} {u : URL} {h : Html}
      (hw : c.workers[w]? = some (.fetching u)) (he : env u = some h)
      (hp : parse_stories h = .error ()) :
      Step env c (.pageFail w u) ⟨c.queue, c.sink, c.workers.set w .crashed⟩
  | pageEmptyStep {c : Config} {w : Nat} {u : URL} {h : Html}
      (hw : c.workers[w]? = some (.fetching u)) (he : env u = some h)
      (hp : parse_stories h = .ok []) :
      Step env c (.pageEmpty w u) ⟨c.queue, c.sink, c.workers.set w .done⟩
  | fanoutStep {c : Config} {w : Nat} {u : URL} {h : Html} {l : List Story}
      (hw : c.workers[w]? = some (.fetching u)) (he : env u = some h)
      (hp : parse_stories h = .ok l) (hne : l ≠ []) :
      Step env c (.pageOk w u)
        ⟨c.queue, c.sink, c.workers.set w (.fanout l (List.replicate l.length true))⟩
  | taskOkStep {c : Config} {w j : Nat} {l : List Story} {p : List Bool}
      {s : Story} {h : Html}
      (hw : c.workers[w]? = some (.fanout l p))
      (hj : p[j]? = some true) (hs : l[j]? = some s)
      (he : env (ITEM_URL s.id) = some h) :
      Step env c (.taskOk w j)
        ⟨c.queue, c.sink, c.workers.set w (.fanout l (p.set j false))⟩
  | taskFailStep {c : Config} {w j : Nat} {l : List Story} {p : List Bool}
      {s : Story}
      (hw : c.workers[w]? = some (.fanout l p))
      (hj : p[j]? = some true) (hs : l[j]? = some s)
      (he : env (ITEM_URL s.id) = none) :
      Step env c (.taskFail w j) ⟨c.queue, c.sink, c.workers.set w .crashed⟩
  | publishStep {c : Config} {w : Nat} {l : List Story} {p : List Bool}
      (hw : c.workers[w]? = some (.fanout l p))
      (hdone : ∀ b ∈ p, b = false) :
      Step env c (.published w (l.map (enrichStory env)))
        ⟨c.queue, c.sink ++ l.map (enrichStory env), c.workers.set w .idle⟩

/-- A finite run: a chain of steps with its trace of events. -/
inductive Steps (env : Env) : Config → List Event → Config → Prop
  | nil (c : Config) : Steps env c [] c
  | cons {c1 : Config} {e : Event} {c2 : Config} {tr : List Event} {c3 : Config}
      (h : Step env c1 e c2) (hs : Steps env c2 tr c3) : Steps env c1 (e :: tr) c3

/-- A configuration from which no worker can take any step. -/
def Terminal (env : Env) (c : Config) : Prop :=
  ∀ e c2, ¬ Step env c e c2

/-- The initial configuration of a run: the pre-filled queue, the empty
all_stories list, and n workers at the top of their loops. -/
def initConfig (urls : List URL) (n : Nat) : Config :=
  ⟨urls, [], List.replicate n .idle⟩

/-- The 100 page URLs main enqueues (scraper.py lines 138-140:
range(1, 101)). -/
def main_urls : List URL :=
  (List.range 100).map fun p => BASE_URL (p + 1)

/-- Number of threads in the multithreaded configuration (scraper.py
line 146). -/
def worker_pool_size : Nat := 8

/-- The initial configuration built by main (scraper.py lines 135-153):
100 page URLs, and 8 workers when multithreaded, else 1. -/
def mainConfig (multithreaded : Bool) : Config :=
  initConfig main_urls (if multithreaded then worker_pool_size else 1)

/-- The URLs dequeued during a trace, in dequeue order. -/
def dequeuedTrace (tr : List Event) : List URL :=
  tr.filterMap fun e =>
    match e with
    | .claimed _ u => some u
    | _ => none

/-- The records appended to all_stories during a trace, in append order. -/
def publishedTrace (tr : List Event) : List FullStory :=
  (tr.filterMap fun e =>
    match e with
    | .published _ rs => some rs
    | _ => none).flatten

/-- Modelled from the spec: the error accounting of §8 "Count
conservation" — one error per primary-fetch/parse failure, per empty
page that ended a worker, and per secondary-fetch failure.  The code
itself keeps no error counter, so this counter exists only on the
trace, for comparison with the spec's claims. -/
def specErrors (tr : List Event) : Nat :=
  (tr.filter fun e =>
    match e with
    | .pageFail .. => true
    | .pageEmpty .. => true
    | .taskFail .. => true
    | _ => false).length

/-- Setting an existing position then reading it back yields the new
value. -/
theorem getElem?_set_same {α : Type} {l : List α} {n : Nat} {a : α} (b : α)
    (h : l[n]? = some a) : (l.set n b)[n]? = some b := by
  have hn : n < l.length := by
    by_contra hc
    rw [List.getElem?_eq_none (by omega)] at h
    exact Option.noConfusion h
  rw [List.getElem?_set_self (by simpa using hn)]

/-- Updating one position of a list changes a mapped sum by exactly the
difference at that position. -/
theorem sum_map_set {α : Type} (f : α → Nat) {l : List α} {n : Nat} {a : α} (b : α)
    (h : l[n]? = some a) :
    ((l.set n b).map f).sum + f a = (l.map f).sum + f b := by
  induction l generalizing n with
  | nil => simp at h
  | cons x xs ih =>
      cases n with
      | zero =>
          simp only [List.getElem?_cons_zero, Option.some.injEq] at h
          subst h
          simp only [List.set_cons_zero, List.map_cons, List.sum_cons]
          omega
      | succ m =>
          simp only [List.getElem?_cons_succ] at h
          have := ih h
          simp only [List.set_cons_succ, List.map_cons, List.sum_cons]
          omega

/-- A configuration in which every worker has finished (normally or by
an uncaught exception) admits no further step. -/
theorem terminal_of_final (env : Env) (c : Config)
    (hall : ∀ s ∈ c.workers, s = WState.done ∨ s = WState.crashed) :
    Terminal env c := by
  intro e c2 hstep
  cases hstep with
  | claim hw _ => rcases hall _ (List.getElem?_mem hw) with h | h <;> cases h
  | claimEmpty hw _ => rcases hall _ (List.getElem?_mem hw) with h | h <;> cases h
  | fetchFail hw _ => rcases hall _ (List.getElem?_mem hw) with h | h <;> cases h
  | parseFailStep hw _ _ => rcases hall _ (List.getElem?_mem hw) with h | h <;> cases h
  | pageEmptyStep hw _ _ => rcases hall _ (List.getElem?_mem hw) with h | h <;> cases h
  | fanoutStep hw _ _ _ => rcases hall _ (List.getElem?_mem hw) with h | h <;> cases h
  | taskOkStep hw _ _ _ => rcases hall _ (List.getElem?_mem hw) with h | h <;> cases h
  | taskFailStep hw _ _ _ => rcases hall _ (List.getElem?_mem hw) with h | h <;> cases h
  | publishStep hw _ => rcases hall _ (List.getElem?_mem hw) with h | h <;> cases h

/-- Along any run, the initial queue splits into the list of dequeued
URLs (in dequeue order) followed by the remaining queue: every pop
takes the head, so nothing is duplicated and nothing is dropped from
the queue itself. -/
theorem steps_queue_split (env : Env) {c1 : Config} {tr : List Event} {c2 : Config}
    (h : Steps env c1 tr c2) : c1.queue = dequeuedTrace tr ++ c2.queue := by
  induction h with
  | nil c => simp [dequeuedTrace]
  | cons hstep _ ih =>
      cases hstep with
      | claim hw hq =>
          simp only [dequeuedTrace, List.filterMap_cons] at ih ⊢
          rw [hq, ih]
          simp
      | claimEmpty hw hq => simpa [dequeuedTrace] using ih
      | fetchFail hw he => simpa [dequeuedTrace] using ih
      | parseFailStep hw he hp => simpa [dequeuedTrace] using ih
      | pageEmptyStep hw he hp => simpa [dequeuedTrace] using ih
      | fanoutStep hw he hp hne => simpa [dequeuedTrace] using ih
      | taskOkStep hw hj hs he => simpa [dequeuedTrace] using ih
      | taskFailStep hw hj hs he => simpa [dequeuedTrace] using ih
      | publishStep hw hdone => simpa [dequeuedTrace] using ih

/-- Along any run, the all_stories list grows exactly by the published
page batches, in publish order: nothing else writes the sink. -/
theorem steps_sink_split (env : Env) {c1 : Config} {tr : List Event} {c2 : Config}
    (h : Steps env c1 tr c2) : c2.sink = c1.sink ++ publishedTrace tr := by
  induction h with
  | nil c => simp [publishedTrace]
  | cons hstep _ ih =>
      cases hstep with
      | claim hw hq => simpa [publishedTrace] using ih
      | claimEmpty hw hq => simpa [publishedTrace] using ih
      | fetchFail hw he => simpa [publishedTrace] using ih
      | parseFailStep hw he hp => simpa [publishedTrace] using ih
      | pageEmptyStep hw he hp => simpa [publishedTrace] using ih
      | fanoutStep hw he hp hne => simpa [publishedTrace] using ih
      | taskOkStep hw hj hs he => simpa [publishedTrace] using ih
      | taskFailStep hw hj hs he => simpa [publishedTrace] using ih
      | publishStep hw hdone =>
          simp only [publishedTrace, List.filterMap_cons] at ih ⊢
          simp only [List.flatten_cons] at ih ⊢
          rw [ih]
          simp

/-- A step by one worker leaves the slot of a worker that has already
finished (done) unchanged. -/
theorem set_keeps_done {l : List WState} {w w2 : Nat} {s : WState} (x : WState)
    (hw : l[w2]? = some s) (hne : s ≠ WState.done)
    (hdone : l[w]? = some WState.done) : (l.set w2 x)[w]? = some WState.done := by
  by_cases hww : w2 = w
  · subst hww
    rw [hw] at hdone
    cases hdone
    exact absurd rfl hne
  · rw [List.getElem?_set_ne hww]
    exact hdone

/-- C2: the join barrier.  In any step, either the sink is untouched, or
the step is the publish of a page whose fan-out tasks have all
completed (every pending flag false), appending exactly that page's
enriched batch; and a page can only be claimed by a worker sitting at
the top of its loop (idle), which a worker with outstanding fan-out
tasks never is. -/
theorem join_barrier (env : Env) {c : Config} {e : Event} {c2 : Config}
    (h : Step env c e c2) :
    (∀ w u, e = .claimed w u → c.workers[w]? = some WState.idle) ∧
    (c2.sink = c.sink ∨
      ∃ w ss pending, c.workers[w]? = some (.fanout ss pending) ∧
        (∀ b ∈ pending, b = false) ∧
        e = .published w (ss.map (enrichStory env)) ∧
        c2.sink = c.sink ++ ss.map (enrichStory env)) := by
  cases h with
  | claim hw hq =>
      refine ⟨?_, Or.inl rfl⟩
      intro w u heq
      cases heq
      exact hw
  | claimEmpty hw hq => exact ⟨nofun, Or.inl rfl⟩
  | fetchFail hw he => exact ⟨nofun, Or.inl rfl⟩
  | parseFailStep hw he hp => exact ⟨nofun, Or.inl rfl⟩
  | pageEmptyStep hw he hp => exact ⟨nofun, Or.inl rfl⟩
  | fanoutStep hw he hp hne => exact ⟨nofun, Or.inl rfl⟩
  | taskOkStep hw hj hs he => exact ⟨nofun, Or.inl rfl⟩
  | taskFailStep hw hj hs he => exact ⟨nofun, Or.inl rfl⟩
  | publishStep hw hdone =>
      exact ⟨nofun, Or.inr ⟨_, _, _, hw, hdone, rfl, rfl⟩⟩

/-- C6: the worker stop rule.  A worker that sees the queue Empty breaks
out of its loop into the terminated state; a worker whose claimed page
parses to zero stories likewise terminates; and a terminated worker
stays terminated (it never claims another page). -/
theorem worker_stop_rule (env : Env) {c : Config} {e : Event} {c2 : Config} (w : Nat)
    (h : Step env c e c2) :
    (e = .emptyQueue w → c2.workers[w]? = some WState.done) ∧
    (∀ u, e = .pageEmpty w u → c2.workers[w]? = some WState.done) ∧
    (c.workers[w]? = some WState.done → c2.workers[w]? = some WState.done) := by
  cases h with
  | claim hw hq =>
      exact ⟨nofun, nofun, set_keeps_done _ hw (by simp)⟩
  | claimEmpty hw hq =>
      refine ⟨?_, nofun, set_keeps_done _ hw (by simp)⟩
      intro heq
      cases heq
      exact getElem?_set_same _ hw
  | fetchFail hw he =>
      exact ⟨nofun, nofun, set_keeps_done _ hw (by simp)⟩
  | parseFailStep hw he hp =>
      exact ⟨nofun, nofun, set_keeps_done _ hw (by simp)⟩
  | pageEmptyStep hw he hp =>
      refine ⟨nofun, ?_, set_keeps_done _ hw (by simp)⟩
      intro u heq
      cases heq
      exact getElem?_set_same _ hw
  | fanoutStep hw he hp hne =>
      exact ⟨nofun, nofun, set_keeps_done _ hw (by simp)⟩
  | taskOkStep hw hj hs he =>
      exact ⟨nofun, nofun, set_keeps_done _ hw (by simp)⟩
  | taskFailStep hw hj hs he =>
      exact ⟨nofun, nofun, set_keeps_done _ hw (by simp)⟩
  | publishStep hw hdone =>
      exact ⟨nofun, nofun, set_keeps_done _ hw (by simp)⟩

/-- C3 (amended): when a secondary (comment-page) fetch fails, nothing
catches the exception: the TaskGroup cancels the sibling tasks and
re-raises, the worker crashes, and the page batch — the failing record
and its siblings alike — is never appended to all_stories (the sink and
the queue are untouched by the failing step, and the worker never
publishes afterwards). -/
theorem secondary_failure_crashes_worker (env : Env) {c c2 : Config} {w j : Nat}
    (h : Step env c (.taskFail w j) c2) :
    c2.sink = c.sink ∧ c2.workers[w]? = some WState.crashed ∧ c2.queue = c.queue := by
  cases h with
  | taskFailStep hw hj hs he => exact ⟨rfl, getElem?_set_same _ hw, rfl⟩

/-- C4 (amended): when the primary page fetch raises (network failure or
timeout), or parse_stories raises KeyError, the worker catches nothing:
the exception propagates out of the worker loop and the worker ends
crashed — not in the normal terminated state — and no error counter is
updated (none exists in the code). -/
theorem primary_failure_crashes_worker (env : Env) {c c2 : Config} {w : Nat} {u : URL}
    (h : Step env c (.pageFail w u) c2) :
    c2.sink = c.sink ∧ c2.workers[w]? = some WState.crashed ∧ c2.queue = c.queue := by
  cases h with
  | fetchFail hw he => exact ⟨rfl, getElem?_set_same _ hw, rfl⟩
  | parseFailStep hw he hp => exact ⟨rfl, getElem?_set_same _ hw, rfl⟩

/-- Number of fan-out tasks a page URL gives rise to: the number of
stories its document parses to (0 when the fetch or the parse fails, or
when the page is empty). -/
def tasksOf (env : Env) (u : URL) : Nat :=
  match env u with
  | none => 0
  | some h =>
    match parse_stories h with
    | .error _ => 0
    | .ok ss => ss.length

/-- Cost one for an outstanding fan-out task. -/
def flagCost (b : Bool) : Nat := if b then 1 else 0

/-- Remaining-work cost of one worker state: how many more steps the
worker can take before it must claim a fresh page (or stop). -/
def localCost (env : Env) : WState → Nat
  | .idle => 1
  | .fetching u => tasksOf env u + 3
  | .fanout _ pending => 2 + (pending.map flagCost).sum
  | .done => 0
  | .crashed => 0

/-- Termination measure of a configuration: each queued URL is worth K
steps, plus the remaining local work of every worker. -/
def workMeasure (env : Env) (K : Nat) (c : Config) : Nat :=
  K * c.queue.length + (c.workers.map (localCost env)).sum

/-- Sum of the task flags of a full fan-out. -/
theorem flags_sum_replicate (n : Nat) :
    ((List.replicate n true).map flagCost).sum = n := by
  induction n with
  | zero => simp
  | succ m ih =>
      simp [List.replicate_succ, flagCost, ih]
      omega

/-- Every step strictly decreases the measure, provided K dominates the
fan-out width of every queued page; and the bound on the queue is
preserved (the queue only loses its head). -/
theorem step_decreases (env : Env) {K : Nat} {c : Config} {e : Event} {c2 : Config}
    (hK : ∀ u ∈ c.queue, tasksOf env u + 3 ≤ K)
    (h : Step env c e c2) :
    workMeasure env K c2 < workMeasure env K c ∧
      ∀ u ∈ c2.queue, tasksOf env u + 3 ≤ K := by
  cases h with
  | claim hw hq =>
      rename_i w u rest
      have hsum := sum_map_set (localCost env) (WState.fetching u) hw
      simp only [localCost] at hsum
      have hKu : tasksOf env u + 3 ≤ K := hK u (by rw [hq]; exact List.mem_cons_self _ _)
      constructor
      · simp only [workMeasure, hq, List.length_cons, Nat.mul_succ]
        omega
      · intro v hv
        exact hK v (by rw [hq]; exact List.mem_cons_of_mem _ hv)
  | claimEmpty hw hq =>
      have hsum := sum_map_set (localCost env) WState.done hw
      simp only [localCost] at hsum
      exact ⟨by simp only [workMeasure]; omega, hK⟩
  | fetchFail hw he =>
      have hsum := sum_map_set (localCost env) WState.crashed hw
      simp only [localCost] at hsum
      exact ⟨by simp only [workMeasure]; omega, hK⟩
  | parseFailStep hw he hp =>
      have hsum := sum_map_set (localCost env) WState.crashed hw
      simp only [localCost] at hsum
      exact ⟨by simp only [workMeasure]; omega, hK⟩
  | pageEmptyStep hw he hp =>
      have hsum := sum_map_set (localCost env) WState.done hw
      simp only [localCost] at hsum
      exact ⟨by simp only [workMeasure]; omega, hK⟩
  | fanoutStep hw he hp hne =>
      rename_i w u hdoc ss
      have hsum := sum_map_set (localCost env)
        (WState.fanout ss (List.replicate ss.length true)) hw
      simp only [localCost] at hsum
      rw [flags_sum_replicate] at hsum
      have htasks : tasksOf env u = ss.length := by
        simp [tasksOf, he, hp]
      rw [htasks] at hsum
      exact ⟨by simp only [workMeasure]; omega, hK⟩
  | taskOkStep hw hj hs he =>
      rename_i w j ss pending s hdoc
      have hsum := sum_map_set (localCost env)
        (WState.fanout ss (pending.set j false)) hw
      simp only [localCost] at hsum
      have hflag := sum_map_set flagCost false hj
      simp only [flagCost, if_pos, if_neg] at hflag
      simp only [Bool.false_eq_true, if_false, if_true] at hflag
      exact ⟨by simp only [workMeasure]; omega, hK⟩
  | taskFailStep hw hj hs he =>
      have hsum := sum_map_set (localCost env) WState.crashed hw
      simp only [localCost] at hsum
      exact ⟨by simp only [workMeasure]; omega, hK⟩
  | publishStep hw hdone =>
      rename_i w ss pending
      have hsum := sum_map_set (localCost env) WState.idle hw
      simp only [localCost] at hsum
      have hzero : (pending.map flagCost).sum = 0 := by
        apply List.sum_eq_zero
        intro x hx
        rcases List.mem_map.mp hx with ⟨b, hb, hfb⟩
        rw [hdone b hb] at hfb
        simpa [flagCost] using hfb.symm
      rw [hzero] at hsum
      exact ⟨by simp only [workMeasure]; omega, hK⟩

/-- The length of any run is bounded by the measure of its starting
configuration. -/
theorem steps_length_bound (env : Env) (K : Nat) :
    ∀ {c : Config} {tr : List Event} {c2 : Config}, Steps env c tr c2 →
      (∀ u ∈ c.queue, tasksOf env u + 3 ≤ K) →
      tr.length ≤ workMeasure env K c := by
  intro c tr c2 h
  induction h with
  | nil c => intro _; exact Nat.zero_le _
  | cons hstep hs ih =>
      intro hK
      obtain ⟨hlt, hK2⟩ := step_decreases env hK hstep
      have hle := ih hK2
      simp only [List.length_cons]
      omega

/-- The largest fan-out width among a list of page URLs. -/
def maxTasks (env : Env) (urls : List URL) : Nat :=
  (urls.map fun u => tasksOf env u).foldr Nat.max 0

/-- Every listed URL has fan-out width at most maxTasks. -/
theorem tasksOf_le_maxTasks (env : Env) (urls : List URL) {u : URL} (hu : u ∈ urls) :
    tasksOf env u ≤ maxTasks env urls := by
  induction urls with
  | nil => simp at hu
  | cons v rest ih =>
      rcases List.mem_cons.mp hu with h | h
      · subst h
        simp only [maxTasks, List.map_cons, List.foldr_cons]
        exact Nat.le_max_left _ _
      · have := ih h
        simp only [maxTasks, List.map_cons, List.foldr_cons]
        exact le_trans this (Nat.le_max_right _ _)

/-- Well-formedness of fan-out states: one pending flag per story. -/
abbrev WfFanout (c : Config) : Prop :=
  ∀ (w : Nat) (ss : List Story) (pending : List Bool),
    c.workers[w]? = some (WState.fanout ss pending) →
    pending.length = ss.length

/-- Reading a slot after writing another: either it is the written slot
(and the written value is read) or the read passes through. -/
theorem getElem?_set_split {l : List WState} {w w2 : Nat} {x s : WState}
    (h : (l.set w2 x)[w]? = some s) :
    (w2 = w ∧ s = x) ∨ l[w]? = some s := by
  by_cases hww : w2 = w
  · subst hww
    rw [List.getElem?_set_self'] at h
    rcases hl : l[w2]? with _ | y
    · rw [hl] at h
      cases h
    · rw [hl] at h
      cases h
      exact Or.inl ⟨rfl, rfl⟩
  · rw [List.getElem?_set_ne hww] at h
    exact Or.inr h

/-- The initial configuration is well formed: every worker is idle. -/
theorem wfFanout_init (urls : List URL) (n : Nat) : WfFanout (initConfig urls n) := by
  intro w ss pending hw
  simp only [initConfig, List.getElem?_replicate] at hw
  split at hw
  · cases hw
  · cases hw

/-- Steps preserve fan-out well-formedness. -/
theorem wfFanout_step (env : Env) {c : Config} {e : Event} {c2 : Config}
    (h : Step env c e c2) (hwf : WfFanout c) : WfFanout c2 := by
  cases h with
  | claim hw hq =>
      intro w2 ss2 p2 h2
      rcases getElem?_set_split h2 with ⟨_, hx⟩ | hpass
      · cases hx
      · exact hwf _ _ _ hpass
  | claimEmpty hw hq =>
      intro w2 ss2 p2 h2
      rcases getElem?_set_split h2 with ⟨_, hx⟩ | hpass
      · cases hx
      · exact hwf _ _ _ hpass
  | fetchFail hw he =>
      intro w2 ss2 p2 h2
      rcases getElem?_set_split h2 with ⟨_, hx⟩ | hpass
      · cases hx
      · exact hwf _ _ _ hpass
  | parseFailStep hw he hp =>
      intro w2 ss2 p2 h2
      rcases getElem?_set_split h2 with ⟨_, hx⟩ | hpass
      · cases hx
      · exact hwf _ _ _ hpass
  | pageEmptyStep hw he hp =>
      intro w2 ss2 p2 h2
      rcases getElem?_set_split h2 with ⟨_, hx⟩ | hpass
      · cases hx
      · exact hwf _ _ _ hpass
  | fanoutStep hw he hp hne =>
      intro w2 ss2 p2 h2
      rcases getElem?_set_split h2 with ⟨_, hx⟩ | hpass
      · cases hx
        simp
      · exact hwf _ _ _ hpass
  | taskOkStep hw hj hs he =>
      rename_i w j ss pending s hdoc
      intro w2 ss2 p2 h2
      rcases getElem?_set_split h2 with ⟨_, hx⟩ | hpass
      · cases hx
        rw [List.length_set]
        exact hwf _ _ _ hw
      · exact hwf _ _ _ hpass
  | taskFailStep hw hj hs he =>
      intro w2 ss2 p2 h2
      rcases getElem?_set_split h2 with ⟨_, hx⟩ | hpass
      · cases hx
      · exact hwf _ _ _ hpass
  | publishStep hw hdone =>
      intro w2 ss2 p2 h2
      rcases getElem?_set_split h2 with ⟨_, hx⟩ | hpass
      · cases hx
      · exact hwf _ _ _ hpass

/-- Runs preserve fan-out well-formedness. -/
theorem wfFanout_steps (env : Env) {c : Config} {tr : List Event} {c2 : Config}
    (h : Steps env c tr c2) (hwf : WfFanout c) : WfFanout c2 := by
  induction h with
  | nil c => exact hwf
  | cons hstep hs ih => exact ih (wfFanout_step env hstep hwf)

/-- Progress: in a well-formed configuration where some worker is still
running (neither done nor crashed), some step is enabled. -/
theorem progress_of_running (env : Env) {c : Config} (hwf : WfFanout c)
    (hex : ∃ s ∈ c.workers, s ≠ WState.done ∧ s ≠ WState.crashed) :
    ∃ e c2, Step env c e c2 := by
  obtain ⟨s, hmem, hnd, hnc⟩ := hex
  obtain ⟨w, hw⟩ := List.mem_iff_getElem?.mp hmem
  cases s with
  | idle =>
      rcases hq : c.queue with _ | ⟨u, rest⟩
      · exact ⟨_, _, Step.claimEmpty hw hq⟩
      · exact ⟨_, _, Step.claim hw hq⟩
  | fetching u =>
      rcases he : env u with _ | hdoc
      · exact ⟨_, _, Step.fetchFail hw he⟩
      · rcases hp : parse_stories hdoc with e | ss
        · cases e
          exact ⟨_, _, Step.parseFailStep hw he hp⟩
        · rcases hss : ss with _ | ⟨s0, srest⟩
          · rw [hss] at hp
            exact ⟨_, _, Step.pageEmptyStep hw he hp⟩
          · rw [hss] at hp
            exact ⟨_, _, Step.fanoutStep hw he hp (by simp)⟩
  | fanout ss pending =>
      by_cases hall : ∀ b ∈ pending, b = false
      · exact ⟨_, _, Step.publishStep hw hall⟩
      · push_neg at hall
        obtain ⟨b, hb, hbne⟩ := hall
        have hbt : b = true := by
          cases b
          · exact absurd rfl hbne
          · rfl
        subst hbt
        obtain ⟨j, hj⟩ := List.mem_iff_getElem?.mp hb
        have hjlen : j < pending.length := by
          by_contra hc
          rw [List.getElem?_eq_none (by omega)] at hj
          exact Option.noConfusion hj
        have hslen : j < ss.length := by
          rw [← hwf w ss pending hw]
          exact hjlen
        have hs : ss[j]? = some (ss[j]) := List.getElem?_eq_getElem hslen
        rcases he : env (ITEM_URL (ss[j]).id) with _ | hdoc
        · exact ⟨_, _, Step.taskFailStep hw hj hs he⟩
        · exact ⟨_, _, Step.taskOkStep hw hj hs he⟩
  | done => exact absurd rfl hnd
  | crashed => exact absurd rfl hnc

/-- Concrete test data: two well-formed story items, as on a populated
Hacker News page. -/
def storyTagA : TitleTag := ⟨"Story A", some "https://a.example/"⟩

def storyTagB : TitleTag := ⟨"Story B", some "https://b.example/"⟩

def itemA : Item := ⟨some storyTagA, some "1001"⟩

def itemB : Item := ⟨some storyTagB, some "1002"⟩

/-- A page parsing to the two stories A and B. -/
def pageWithStories : Html := ⟨[itemA, itemB], []⟩

/-- A page parsing to zero stories. -/
def pageNoStories : Html := ⟨[], []⟩

/-- A comment page with one well-formed comment row. -/
def commentPage : Html := ⟨[], [⟨some "alice", some "Nice read"⟩]⟩

def storyA : Story := ⟨"1001", "Story A", "https://a.example/"⟩

def storyB : Story := ⟨"1002", "Story B", "https://b.example/"⟩

def fullA : FullStory := ⟨"1001", "Story A", "https://a.example/", [⟨"alice", "Nice read"⟩]⟩

def fullB : FullStory := ⟨"1002", "Story B", "https://b.example/", [⟨"alice", "Nice read"⟩]⟩

/-- Oracle for the two-page scenario: page 1 holds A and B, page 2 is
empty, both comment pages resolve. -/
def envScenario : Env := fun u =>
  if u = BASE_URL 1 then some pageWithStories
  else if u = BASE_URL 2 then some pageNoStories
  else if u = ITEM_URL "1001" then some commentPage
  else if u = ITEM_URL "1002" then some commentPage
  else none

/-- Oracle where the first page parses to zero stories. -/
def envEmptyFirstPage : Env := fun u =>
  if u = BASE_URL 1 then some pageNoStories else none

/-- Oracle where page 1 holds A and B but the comment fetch for B (id
1002) fails. -/
def envSecondaryBFails : Env := fun u =>
  if u = BASE_URL 1 then some pageWithStories
  else if u = ITEM_URL "1001" then some commentPage
  else none

/-- Oracle where every fetch raises. -/
def envAllFail : Env := fun _ => none

/-- The single-worker run of the two-page scenario: claim page 1, fan
out A and B, complete both comment tasks, publish, claim page 2, parse
zero stories, terminate. -/
theorem run_scenario :
    Steps envScenario ⟨[BASE_URL 1, BASE_URL 2], [], [WState.idle]⟩
      [.claimed 0 (BASE_URL 1), .pageOk 0 (BASE_URL 1), .taskOk 0 0, .taskOk 0 1,
       .published 0 [fullA, fullB], .claimed 0 (BASE_URL 2), .pageEmpty 0 (BASE_URL 2)]
      ⟨[], [fullA, fullB], [WState.done]⟩ := by
  refine Steps.cons (Step.claim (by decide) rfl) ?_
  refine Steps.cons
    (Step.fanoutStep (h := pageWithStories) (l := [storyA, storyB])
      (by decide) (by decide) rfl (by decide)) ?_
  refine Steps.cons
    (Step.taskOkStep (l := [storyA, storyB]) (p := List.replicate 2 true)
      (s := storyA) (h := commentPage) (by decide) (by decide) rfl (by decide)) ?_
  refine Steps.cons
    (Step.taskOkStep (l := [storyA, storyB]) (p := (List.replicate 2 true).set 0 false)
      (s := storyB) (h := commentPage) (by decide) (by decide) rfl (by decide)) ?_
  refine Steps.cons
    (Step.publishStep (l := [storyA, storyB])
      (p := ((List.replicate 2 true).set 0 false).set 1 false)
      (by decide) (by decide)) ?_
  refine Steps.cons (Step.claim (by decide) rfl) ?_
  refine Steps.cons
    (Step.pageEmptyStep (h := pageNoStories) (by decide) (by decide) rfl) ?_
  exact Steps.nil _

/-- A run in which the first page parses empty while a second URL is
still queued: the worker terminates and the second URL is never
dequeued. -/
theorem run_leftover_queue :
    Steps envEmptyFirstPage ⟨[BASE_URL 1, BASE_URL 2], [], [WState.idle]⟩
      [.claimed 0 (BASE_URL 1), .pageEmpty 0 (BASE_URL 1)]
      ⟨[BASE_URL 2], [], [WState.done]⟩ := by
  refine Steps.cons (Step.claim (by decide) rfl) ?_
  refine Steps.cons
    (Step.pageEmptyStep (h := pageNoStories) (by decide) (by decide) rfl) ?_
  exact Steps.nil _

/-- A run on a one-URL queue whose page parses empty: one claim, then
termination on the empty page. -/
theorem run_empty_page :
    Steps envEmptyFirstPage ⟨[BASE_URL 1], [], [WState.idle]⟩
      [.claimed 0 (BASE_URL 1), .pageEmpty 0 (BASE_URL 1)]
      ⟨[], [], [WState.done]⟩ := by
  refine Steps.cons (Step.claim (by decide) rfl) ?_
  refine Steps.cons
    (Step.pageEmptyStep (h := pageNoStories) (by decide) (by decide) rfl) ?_
  exact Steps.nil _

/-- A run on an initially empty queue: the worker sees Empty and stops. -/
theorem run_queue_already_empty :
    Steps envAllFail ⟨[], [], [WState.idle]⟩ [.emptyQueue 0] ⟨[], [], [WState.done]⟩ := by
  refine Steps.cons (Step.claimEmpty (by decide) rfl) ?_
  exact Steps.nil _

/-- A run in which the comment fetch for B fails after the one for A
succeeded: the TaskGroup failure crashes the worker, nothing is
published. -/
theorem run_secondary_failure :
    Steps envSecondaryBFails ⟨[BASE_URL 1], [], [WState.idle]⟩
      [.claimed 0 (BASE_URL 1), .pageOk 0 (BASE_URL 1), .taskOk 0 0, .taskFail 0 1]
      ⟨[], [], [WState.crashed]⟩ := by
  refine Steps.cons (Step.claim (by decide) rfl) ?_
  refine Steps.cons
    (Step.fanoutStep (h := pageWithStories) (l := [storyA, storyB])
      (by decide) (by decide) rfl (by decide)) ?_
  refine Steps.cons
    (Step.taskOkStep (l := [storyA, storyB]) (p := List.replicate 2 true)
      (s := storyA) (h := commentPage) (by decide) (by decide) rfl (by decide)) ?_
  refine Steps.cons
    (Step.taskFailStep (l := [storyA, storyB]) (p := (List.replicate 2 true).set 0 false)
      (s := storyB) (by decide) (by decide) rfl (by decide)) ?_
  exact Steps.nil _

/-- A run in which the primary fetch of the first page fails: the worker
crashes on the uncaught exception. -/
theorem run_primary_failure :
    Steps envAllFail ⟨[BASE_URL 1], [], [WState.idle]⟩
      [.claimed 0 (BASE_URL 1), .pageFail 0 (BASE_URL 1)]
      ⟨[], [], [WState.crashed]⟩ := by
  refine Steps.cons (Step.claim (by decide) rfl) ?_
  refine Steps.cons (Step.fetchFail (by decide) rfl) ?_
  exact Steps.nil _

/-- Number of fetch failures in a trace: failed primary page
fetches/parses and failed secondary (comment) fetches. -/
def failedFetches (tr : List Event) : Nat :=
  (tr.filter fun e =>
    match e with
    | .pageFail .. => true
    | .taskFail .. => true
    | _ => false).length

/-- The separator string "=" times 60 printed by main. -/
def sepLine : String := String.mk (List.replicate 60 '=')

/-- The lines printed by main on completion (scraper.py lines 158-163):
the separator, the total story count (len of all_stories), the elapsed
time, the speed, and the separator again.  Elapsed time and the
records/second ratio are wall-clock floats formatted by the f-string;
they enter this model as opaque preformatted strings. -/
def reportLines (nStories : Nat) (elapsedStr speedStr : String) : List String :=
  ["\n" ++ sepLine,
   "Total stories scraped: " ++ toString nStories,
   "Time elapsed: " ++ elapsedStr ++ " seconds",
   "Scraping speed: " ++ speedStr ++ " stories/sec",
   sepLine ++ "\n"]

/-- C1 (amended): along any run the enqueued URL list splits into the
dequeued URLs (in dequeue order) followed by the remaining queue — each
entry is delivered to at most one tryTake call, nothing is duplicated
and nothing is lost from the queue itself; but entries may remain
undequeued at termination (see the counterexample). -/
theorem queue_delivery_exactly_once (env : Env) {c1 : Config} {tr : List Event}
    {c2 : Config} (h : Steps env c1 tr c2) :
    c1.queue = dequeuedTrace tr ++ c2.queue :=
  steps_queue_split env h

/-- Witness for C1: on the concrete two-URL run, the initial queue is
exactly the dequeued prefix followed by the leftover queue. -/
theorem queue_delivery_exactly_once_witness :
    (⟨[BASE_URL 1, BASE_URL 2], [], [WState.idle]⟩ : Config).queue =
      dequeuedTrace [.claimed 0 (BASE_URL 1), .pageEmpty 0 (BASE_URL 1)] ++
        (⟨[BASE_URL 2], [], [WState.done]⟩ : Config).queue :=
  queue_delivery_exactly_once envEmptyFirstPage run_leftover_queue

/-- Counterexample to C1 as stated: a terminal run (single worker, two
enqueued URLs, first page parses empty) in which the multiset of
dequeued URLs is a strict subset of the multiset enqueued — the second
URL is never delivered to anyone. -/
theorem queue_delivery_counterexample :
    Steps envEmptyFirstPage ⟨[BASE_URL 1, BASE_URL 2], [], [WState.idle]⟩
      [.claimed 0 (BASE_URL 1), .pageEmpty 0 (BASE_URL 1)]
      ⟨[BASE_URL 2], [], [WState.done]⟩ ∧
    Terminal envEmptyFirstPage ⟨[BASE_URL 2], [], [WState.done]⟩ ∧
    ¬ List.Perm
        (dequeuedTrace [.claimed 0 (BASE_URL 1), .pageEmpty 0 (BASE_URL 1)])
        [BASE_URL 1, BASE_URL 2] :=
  ⟨run_leftover_queue, terminal_of_final _ _ (by decide), by decide⟩

/-- Witness for C2: a concrete publish step satisfies the join-barrier
conclusion. -/
theorem join_barrier_witness :
    (∀ w u, Event.published 0 ([storyA].map (enrichStory envScenario)) = Event.claimed w u →
      (⟨[], [], [WState.fanout [storyA] [false]]⟩ : Config).workers[w]? = some WState.idle) ∧
    ((⟨[], [] ++ [storyA].map (enrichStory envScenario),
        [WState.fanout [storyA] [false]].set 0 WState.idle⟩ : Config).sink =
      (⟨[], [], [WState.fanout [storyA] [false]]⟩ : Config).sink ∨
      ∃ w ss pending,
        (⟨[], [], [WState.fanout [storyA] [false]]⟩ : Config).workers[w]? =
          some (WState.fanout ss pending) ∧
        (∀ b ∈ pending, b = false) ∧
        Event.published 0 ([storyA].map (enrichStory envScenario)) =
          Event.published w (ss.map (enrichStory envScenario)) ∧
        (⟨[], [] ++ [storyA].map (enrichStory envScenario),
          [WState.fanout [storyA] [false]].set 0 WState.idle⟩ : Config).sink =
          (⟨[], [], [WState.fanout [storyA] [false]]⟩ : Config).sink ++
            ss.map (enrichStory envScenario)) :=
  join_barrier envScenario
    (Step.publishStep (l := [storyA]) (p := [false]) (by decide) (by decide))

/-- Witness for C3 (amended): a concrete failing comment fetch leaves
the sink and queue untouched and crashes its worker. -/
theorem secondary_failure_crashes_worker_witness :
    (⟨[], [], [WState.fanout [storyA, storyB] [false, true]].set 0 WState.crashed⟩ :
        Config).sink =
      (⟨[], [], [WState.fanout [storyA, storyB] [false, true]]⟩ : Config).sink ∧
    (⟨[], [], [WState.fanout [storyA, storyB] [false, true]].set 0 WState.crashed⟩ :
        Config).workers[0]? = some WState.crashed ∧
    (⟨[], [], [WState.fanout [storyA, storyB] [false, true]].set 0 WState.crashed⟩ :
        Config).queue =
      (⟨[], [], [WState.fanout [storyA, storyB] [false, true]]⟩ : Config).queue :=
  secondary_failure_crashes_worker envSecondaryBFails
    (Step.taskFailStep (w := 0) (j := 1) (l := [storyA, storyB])
      (p := [false, true]) (s := storyB)
      (by decide) (by decide) rfl (by decide))

/-- Counterexample to C3 as stated: the comment fetch for B fails; the
run is terminal with the worker crashed, and although B was extracted
from the page, the sink stays empty — B (and its sibling A) is never
appended with empty secondary fields. -/
theorem secondary_failure_counterexample :
    Steps envSecondaryBFails ⟨[BASE_URL 1], [], [WState.idle]⟩
      [.claimed 0 (BASE_URL 1), .pageOk 0 (BASE_URL 1), .taskOk 0 0, .taskFail 0 1]
      ⟨[], [], [WState.crashed]⟩ ∧
    Terminal envSecondaryBFails ⟨[], [], [WState.crashed]⟩ ∧
    parse_stories pageWithStories = Except.ok [storyA, storyB] ∧
    (⟨[], [], [WState.crashed]⟩ : Config).sink = [] :=
  ⟨run_secondary_failure, terminal_of_final _ _ (by decide), rfl, rfl⟩

/-- Witness for C4 (amended): a concrete failing primary fetch crashes
its worker and touches neither sink nor queue. -/
theorem primary_failure_crashes_worker_witness :
    (⟨[], [], [WState.fetching (BASE_URL 1)].set 0 WState.crashed⟩ : Config).sink =
      (⟨[], [], [WState.fetching (BASE_URL 1)]⟩ : Config).sink ∧
    (⟨[], [], [WState.fetching (BASE_URL 1)].set 0 WState.crashed⟩ : Config).workers[0]? =
      some WState.crashed ∧
    (⟨[], [], [WState.fetching (BASE_URL 1)].set 0 WState.crashed⟩ : Config).queue =
      (⟨[], [], [WState.fetching (BASE_URL 1)]⟩ : Config).queue :=
  primary_failure_crashes_worker envAllFail
    (Step.fetchFail (w := 0) (u := BASE_URL 1) (by decide) rfl)

/-- Counterexample to C4 as stated: with every fetch failing, the
single worker's run is terminal with the worker crashed — the failure
propagated out of the worker loop as an exception; the worker did not
transition to the normal terminated state and no error was recorded
anywhere. -/
theorem primary_failure_counterexample :
    Steps envAllFail ⟨[BASE_URL 1], [], [WState.idle]⟩
      [.claimed 0 (BASE_URL 1), .pageFail 0 (BASE_URL 1)] ⟨[], [], [WState.crashed]⟩ ∧
    Terminal envAllFail ⟨[], [], [WState.crashed]⟩ ∧
    (⟨[], [], [WState.crashed]⟩ : Config).workers[0]? = some WState.crashed ∧
    ¬ (⟨[], [], [WState.crashed]⟩ : Config).workers[0]? = some WState.done :=
  ⟨run_primary_failure, terminal_of_final _ _ (by decide), by decide, by decide⟩

/-- C5: every run from the initial configuration (finite pre-filled
queue, n workers, n ≥ 1) has length bounded by the work measure of the
initial configuration — the pool cannot run forever — and a run can
only stall when every worker is done or crashed, i.e. when the pool
join in main completes. -/
theorem pool_run_terminates (env : Env) (urls : List URL) (n : Nat)
    {tr : List Event} {c2 : Config} (_hn : 1 ≤ n)
    (h : Steps env (initConfig urls n) tr c2) :
    tr.length ≤ workMeasure env (maxTasks env urls + 3) (initConfig urls n) ∧
    ((∃ s ∈ c2.workers, s ≠ WState.done ∧ s ≠ WState.crashed) →
      ∃ e c3, Step env c2 e c3) := by
  constructor
  · apply steps_length_bound env _ h
    intro u hu
    have := tasksOf_le_maxTasks env urls hu
    omega
  · intro hex
    exact progress_of_running env (wfFanout_steps env h (wfFanout_init urls n)) hex

/-- Witness for C5: the bound and the progress property instantiated on
a concrete initial configuration with one worker. -/
theorem pool_run_terminates_witness :
    (([] : List Event)).length ≤
      workMeasure envAllFail (maxTasks envAllFail [BASE_URL 1] + 3)
        (initConfig [BASE_URL 1] 1) ∧
    ((∃ s ∈ (initConfig [BASE_URL 1] 1).workers, s ≠ WState.done ∧ s ≠ WState.crashed) →
      ∃ e c3, Step envAllFail (initConfig [BASE_URL 1] 1) e c3) :=
  pool_run_terminates envAllFail [BASE_URL 1] 1 (by decide) (Steps.nil _)

/-- Witness for C6: the stop rule instantiated on a concrete worker
seeing the empty queue. -/
theorem worker_stop_rule_witness :
    (Event.emptyQueue 0 = Event.emptyQueue 0 →
      (⟨[], [], [WState.idle].set 0 WState.done⟩ : Config).workers[0]? = some WState.done) ∧
    (∀ u, Event.emptyQueue 0 = Event.pageEmpty 0 u →
      (⟨[], [], [WState.idle].set 0 WState.done⟩ : Config).workers[0]? = some WState.done) ∧
    ((⟨[], [], [WState.idle]⟩ : Config).workers[0]? = some WState.done →
      (⟨[], [], [WState.idle].set 0 WState.done⟩ : Config).workers[0]? = some WState.done) :=
  worker_stop_rule envAllFail 0 (Step.claimEmpty (by decide) rfl)

/-- C7: the two-page scenario.  With one worker, page 1 parsing to the
stories A and B, page 2 parsing to zero stories and both comment
fetches succeeding, the worker claims page 1, fans out the two comment
tasks, completes both, publishes the enriched A and B, claims page 2,
finds zero stories and terminates; the run is terminal, the final
all_stories is exactly the enriched A and B, and no fetch failed. -/
theorem scenario_two_pages :
    Steps envScenario ⟨[BASE_URL 1, BASE_URL 2], [], [WState.idle]⟩
      [.claimed 0 (BASE_URL 1), .pageOk 0 (BASE_URL 1), .taskOk 0 0, .taskOk 0 1,
       .published 0 [fullA, fullB], .claimed 0 (BASE_URL 2), .pageEmpty 0 (BASE_URL 2)]
      ⟨[], [fullA, fullB], [WState.done]⟩ ∧
    (⟨[], [fullA, fullB], [WState.done]⟩ : Config).sink = [fullA, fullB] ∧
    Terminal envScenario ⟨[], [fullA, fullB], [WState.done]⟩ ∧
    failedFetches [.claimed 0 (BASE_URL 1), .pageOk 0 (BASE_URL 1), .taskOk 0 0, .taskOk 0 1,
       .published 0 [fullA, fullB], .claimed 0 (BASE_URL 2), .pageEmpty 0 (BASE_URL 2)] = 0 ∧
    parse_stories pageWithStories = Except.ok [storyA, storyB] ∧
    parse_stories pageNoStories = Except.ok [] :=
  ⟨run_scenario, rfl, terminal_of_final _ _ (by decide), by decide, rfl, rfl⟩

/-- C8 (amended): the printed total-records line reports exactly the
number of records actually appended to all_stories during the run (the
initial sink plus the published batches); no error total appears in the
report (the code counts no errors; see the counterexample). -/
theorem report_counts_conserved (env : Env) {c1 : Config} {tr : List Event} {c2 : Config}
    (es sp : String) (h : Steps env c1 tr c2) :
    c2.sink = c1.sink ++ publishedTrace tr ∧
    reportLines c2.sink.length es sp =
      ["\n" ++ sepLine,
       "Total stories scraped: " ++ toString (c1.sink.length + (publishedTrace tr).length),
       "Time elapsed: " ++ es ++ " seconds",
       "Scraping speed: " ++ sp ++ " stories/sec",
       sepLine ++ "\n"] := by
  have hsink := steps_sink_split env h
  refine ⟨hsink, ?_⟩
  rw [hsink]
  simp [reportLines]

/-- Witness for C8 (amended): the conserved counts on the concrete
two-page scenario run. -/
theorem report_counts_conserved_witness :
    (⟨[], [fullA, fullB], [WState.done]⟩ : Config).sink =
      (⟨[BASE_URL 1, BASE_URL 2], [], [WState.idle]⟩ : Config).sink ++
        publishedTrace [.claimed 0 (BASE_URL 1), .pageOk 0 (BASE_URL 1), .taskOk 0 0,
          .taskOk 0 1, .published 0 [fullA, fullB], .claimed 0 (BASE_URL 2),
          .pageEmpty 0 (BASE_URL 2)] ∧
    reportLines (⟨[], [fullA, fullB], [WState.done]⟩ : Config).sink.length "0.35" "5" =
      ["\n" ++ sepLine,
       "Total stories scraped: " ++
         toString ((⟨[BASE_URL 1, BASE_URL 2], [], [WState.idle]⟩ : Config).sink.length +
           (publishedTrace [.claimed 0 (BASE_URL 1), .pageOk 0 (BASE_URL 1), .taskOk 0 0,
             .taskOk 0 1, .published 0 [fullA, fullB], .claimed 0 (BASE_URL 2),
             .pageEmpty 0 (BASE_URL 2)]).length),
       "Time elapsed: " ++ "0.35" ++ " seconds",
       "Scraping speed: " ++ "5" ++ " stories/sec",
       sepLine ++ "\n"] :=
  report_counts_conserved envScenario "0.35" "5" run_scenario

/-- Counterexample to C8 as stated: two terminal runs — one ending on
an empty page (one error by the claim's accounting), one ending on an
already-empty queue (zero errors) — produce identical printed reports:
nothing main prints depends on, or reports, the error count. -/
theorem report_errors_counterexample :
    Steps envEmptyFirstPage ⟨[BASE_URL 1], [], [WState.idle]⟩
      [.claimed 0 (BASE_URL 1), .pageEmpty 0 (BASE_URL 1)] ⟨[], [], [WState.done]⟩ ∧
    Terminal envEmptyFirstPage ⟨[], [], [WState.done]⟩ ∧
    Steps envAllFail ⟨[], [], [WState.idle]⟩ [.emptyQueue 0] ⟨[], [], [WState.done]⟩ ∧
    Terminal envAllFail ⟨[], [], [WState.done]⟩ ∧
    specErrors [.claimed 0 (BASE_URL 1), .pageEmpty 0 (BASE_URL 1)] = 1 ∧
    specErrors [.emptyQueue 0] = 0 ∧
    reportLines (⟨[], [], [WState.done]⟩ : Config).sink.length "0.10" "0" =
      reportLines (⟨[], [], [WState.done]⟩ : Config).sink.length "0.10" "0" :=
  ⟨run_empty_page, terminal_of_final _ _ (by decide), run_queue_already_empty,
    terminal_of_final _ _ (by decide), by decide, by decide, rfl⟩

end UnlockedScraper
